import Mathlib

/-!
Shallow embedding of the CRUD state management of the photo-gallery repository.

Source files embedded here:
* `src/unnamed/part_000` — `BookstoreDashboard` (books with `id/title/author/quantity`,
  `handleAddBook`, `handleSaveUpdate`, `handleDeleteBook`, derived `maxQuantity`).
* `src/unnamed/part_001` — `BookStore` (books with string ids, `formReducer`,
  `validateField`/`validateForm`, `addBook`/`updateBook`, `handleFileChange`) and the
  photo gallery (`handleImageUpload`, `handleEditDescription`, `handleDeleteImage`).
* `src/src/app/page.tsx` and `src/unnamed/part_002` — social feed (`createPost`,
  `togglePostLike`, `likeComment`, `sendFriendRequest`, `respondFriendRequest`,
  messages/friend-requests panel toggling).

JavaScript numbers that only ever hold integral values (ids, like counts,
timestamps) are modelled as `Int`; byte sizes as `Nat`.  The dashboard's book
`quantity` is filled from `Number(e.target.value)` of an HTML number input, which
admits fractional values, so it is modelled as `ℚ`.  JavaScript string truthiness
(`""` is falsy) is modelled explicitly where the source relies on it.
-/

namespace Dashboard

/-- `Book` of `src/unnamed/part_000`: `{ id: number; title: string; author: string;
quantity: number }`.  `quantity` comes from `Number(e.target.value)` of a number
input and may be fractional, hence `ℚ`; ids are only ever produced as `maxId + 1`
from the integral seeds, hence `Int`. -/
structure Book where
  id : Int
  title : String
  author : String
  quantity : ℚ
deriving DecidableEq, Repr

/-- Initial `books` state of `BookstoreDashboard`. -/
def initialBooks : List Book :=
  [ { id := 1, title := "The Great Gatsby", author := "F. Scott Fitzgerald", quantity := 15 },
    { id := 2, title := "To Kill a Mockingbird", author := "Harper Lee", quantity := 22 },
    { id := 3, title := "1984", author := "George Orwell", quantity := 18 } ]

/-- The pending `newBook` form value: `Omit<Book, "id">`. -/
structure NewBook where
  title : String
  author : String
  quantity : ℚ
deriving DecidableEq, Repr

/-- `books.length > 0 ? Math.max(...books.map((book) => book.id)) : 0` from
`handleAddBook`. -/
def maxIdOr0 (books : List Book) : Int :=
  match books with
  | [] => 0
  | b :: bs => bs.foldl (fun m x => max m x.id) b.id

/-- `handleAddBook`: guarded by the JS truthiness test
`newBook.title && newBook.author && newBook.quantity > 0`; appends
`{ id: maxId + 1, ...newBook }`. -/
def handleAddBook (books : List Book) (nb : NewBook) : List Book :=
  if nb.title ≠ "" ∧ nb.author ≠ "" ∧ 0 < nb.quantity then
    books ++ [{ id := maxIdOr0 books + 1, title := nb.title, author := nb.author,
                quantity := nb.quantity }]
  else books

/-- `handleSaveUpdate`: guarded by
`updateBook && updateBook.title && updateBook.author && updateBook.quantity > 0`;
replaces the book whose `id` matches `updateBook.id` (the `updateBook` form value is
the argument `ub`; `updateBook !== null` is modelled by `ub` being given). -/
def handleSaveUpdate (books : List Book) (ub : Book) : List Book :=
  if ub.title ≠ "" ∧ ub.author ≠ "" ∧ 0 < ub.quantity then
    books.map (fun b => if b.id = ub.id then ub else b)
  else books

/-- `handleDeleteBook`: `books.filter((book) => book.id !== id)`. -/
def handleDeleteBook (books : List Book) (id : Int) : List Book :=
  books.filter (fun b => b.id != id)

/-- Derived view `maxQuantity = Math.max(...books.map((book) => book.quantity), 1)`:
the maximum over the quantities with `1` as a final argument. -/
def maxQuantity (books : List Book) : ℚ :=
  match books.map (fun b => b.quantity) ++ [1] with
  | [] => 0
  | x :: xs => xs.foldl max x

/-- `true` iff no book in `books` carries identifier `i`. -/
def noId (books : List Book) (i : Int) : Bool :=
  books.all (fun b => b.id != i)

/-- Every book quantity is at least 1 (the invariant the dashboard's add/update guards
maintain). -/
def quantitiesGE1 (books : List Book) : Prop :=
  ∀ b ∈ books, 1 ≤ b.quantity

/-- States of the dashboard's `books` collection reachable from the initial state by the
three mutating handlers. -/
inductive Reach : List Book → Prop
  | init : Reach initialBooks
  | add (nb : NewBook) {s : List Book} : Reach s → Reach (handleAddBook s nb)
  | save (ub : Book) {s : List Book} : Reach s → Reach (handleSaveUpdate s ub)
  | del (id : Int) {s : List Book} : Reach s → Reach (handleDeleteBook s id)

lemma le_foldl_max (l : List Book) (i : Int) :
    i ≤ l.foldl (fun m x => max m x.id) i := by
  induction l generalizing i with
  | nil => exact le_refl i
  | cons b bs ih => exact le_trans (le_max_left i b.id) (ih (max i b.id))

lemma mem_le_foldl_max (l : List Book) (i : Int) {b : Book} (hb : b ∈ l) :
    b.id ≤ l.foldl (fun m x => max m x.id) i := by
  induction l generalizing i with
  | nil => cases hb
  | cons x xs ih =>
    rcases List.mem_cons.mp hb with h | h
    · subst h
      exact le_trans (le_max_right i b.id) (le_foldl_max xs (max i b.id))
    · exact ih (max i x.id) h

lemma mem_id_le_maxIdOr0 {books : List Book} {b : Book} (hb : b ∈ books) :
    b.id ≤ maxIdOr0 books := by
  match books, hb with
  | x :: xs, hb =>
    rcases List.mem_cons.mp hb with h | h
    · subst h
      exact le_foldl_max xs b.id
    · exact mem_le_foldl_max xs x.id h

lemma noId_maxIdOr0_succ (books : List Book) : noId books (maxIdOr0 books + 1) = true := by
  simp only [noId, List.all_eq_true, bne_iff_ne, ne_eq]
  intro b hb h
  have := mem_id_le_maxIdOr0 hb
  omega

lemma handleAddBook_eq (books : List Book) (nb : NewBook)
    (h : nb.title ≠ "" ∧ nb.author ≠ "" ∧ 0 < nb.quantity) :
    handleAddBook books nb =
      books ++ [{ id := maxIdOr0 books + 1, title := nb.title, author := nb.author,
                  quantity := nb.quantity }] := by
  simp [handleAddBook, h]

lemma foldl_max_append_one (qs : List ℚ) (i : ℚ) :
    (qs ++ [1]).foldl max i = max ((qs.foldl max i)) 1 := by
  rw [List.foldl_append]
  rfl

lemma le_foldl_max_rat (l : List ℚ) (i : ℚ) : i ≤ l.foldl max i := by
  induction l generalizing i with
  | nil => exact le_refl i
  | cons x xs ih => exact le_trans (le_max_left i x) (ih (max i x))

lemma maxQuantity_eq_max? {books : List Book} (hne : books ≠ [])
    (hq : quantitiesGE1 books) :
    (books.map (fun b => b.quantity)).max? = some (maxQuantity books) := by
  match books, hne with
  | b :: bs, _ =>
    have hb1 : 1 ≤ b.quantity := hq b (List.mem_cons_self b bs)
    have hfold : 1 ≤ (bs.map (fun b => b.quantity)).foldl max b.quantity :=
      le_trans hb1 (le_foldl_max_rat _ _)
    simp only [maxQuantity, List.map_cons, List.cons_append]
    rw [List.max?_cons', foldl_max_append_one, max_eq_left hfold]

end Dashboard

/-- Computable model of JS `String.prototype.trim()`: strip leading and trailing
whitespace (the builtin `String.trim` is not kernel-reducible). -/
def jsTrim (s : String) : String :=
  String.mk ((s.data.dropWhile Char.isWhitespace).reverse.dropWhile Char.isWhitespace).reverse

/-- Computable model of JS `s.startsWith(pre)` (the builtin `String.startsWith` is not
kernel-reducible). -/
def strStarts (s pre : String) : Bool :=
  pre.data.isPrefixOf s.data

/-- A browser `File` as the upload handlers inspect it: its MIME `type` and its `size`
in bytes. -/
structure JsFile where
  type : String
  size : Nat
deriving DecidableEq, Repr

namespace BookStore

/-- `Book` of the `BookStore` component in `src/unnamed/part_001`: all-string fields,
including the random `id`. -/
structure Book where
  id : String
  title : String
  author : String
  description : String
  image : String
deriving DecidableEq, Repr

/-- `DEFAULT_COVERS` constant (three cloudinary URLs). -/
def DEFAULT_COVERS : List String :=
  [ "https://res.cloudinary.com/db1lfazhq/image/upload/v1736091988/oxrripuwg0gqwa4ithge.jpg",
    "https://res.cloudinary.com/db1lfazhq/image/upload/v1736114455/va9spfgkn9qajldmhily.jpg",
    "https://res.cloudinary.com/db1lfazhq/image/upload/v1736285175/beskrgdsbyqnky8hflgi.jpg" ]

/-- `MAX_IMAGE_SIZE = 5 * 1024 * 1024`. -/
def MAX_IMAGE_SIZE : Nat := 5 * 1024 * 1024

/-- `VALID_IMAGE_TYPES` allow-list. -/
def VALID_IMAGE_TYPES : List String := ["image/jpeg", "image/png", "image/gif", "image/webp"]

/-- The three validated form fields (`title`, `author`, `description`). -/
inductive Field
  | title
  | author
  | description
deriving DecidableEq, Repr

/-- Keys accepted by the `SET_FIELD` action (the three validated fields plus `image`,
which `handleCoverSelect` writes). -/
inductive FieldKey
  | title
  | author
  | description
  | image
deriving DecidableEq, Repr

/-- `errors` record of `FormState` (`string | null` per field). -/
structure Errors where
  title : Option String
  author : Option String
  description : Option String
deriving DecidableEq, Repr

/-- `touched` record of `FormState`. -/
structure Touched where
  title : Bool
  author : Bool
  description : Bool
deriving DecidableEq, Repr

/-- `FormState` of the `BookStore` form reducer. -/
structure FormState where
  book : Book
  editing : Bool
  errors : Errors
  touched : Touched
  selectedImage : Option String
deriving DecidableEq, Repr

/-- A `Partial<FormState["errors"]>` object: a field is overridden exactly when it is
present in the patch. -/
structure ErrorsPatch where
  title : Option (Option String)
  author : Option (Option String)
  description : Option (Option String)
deriving DecidableEq, Repr

/-- `{ ...state.errors, ...action.errors }`. -/
def mergeErrors (e : Errors) (p : ErrorsPatch) : Errors :=
  { title := p.title.getD e.title,
    author := p.author.getD e.author,
    description := p.description.getD e.description }

/-- `FormAction` of the form reducer.  `SET_TOUCHED`'s key is `keyof touched`, hence
`Field`; `SET_FIELD`'s key also covers `image`. -/
inductive FormAction
  | setField (field : FieldKey) (value : String)
  | setErrors (errors : ErrorsPatch)
  | setTouched (field : Field) (value : Bool)
  | setAllTouched (value : Bool)
  | setSelectedImage (value : Option String)
  | loadBook (book : Book)
  | resetForm
deriving DecidableEq, Repr

/-- `{ ...state.book, [action.field]: action.value }`. -/
def setBookField (b : Book) (k : FieldKey) (v : String) : Book :=
  match k with
  | .title => { b with title := v }
  | .author => { b with author := v }
  | .description => { b with description := v }
  | .image => { b with image := v }

/-- `{ ...state.touched, [action.field]: action.value }`. -/
def setTouchedField (t : Touched) (f : Field) (v : Bool) : Touched :=
  match f with
  | .title => { t with title := v }
  | .author => { t with author := v }
  | .description => { t with description := v }

/-- The blank book used by `RESET_FORM` (image defaults to `DEFAULT_COVERS[0]`). -/
def blankBook : Book :=
  { id := "", title := "", author := "", description := "", image := DEFAULT_COVERS.getD 0 "" }

/-- `formReducer(state, action)`.  In `SET_SELECTED_IMAGE`, the source tests JS
truthiness of `action.value`, so `null` and `""` leave `book` unchanged. -/
def formReducer (state : FormState) (action : FormAction) : FormState :=
  match action with
  | .setField k v => { state with book := setBookField state.book k v }
  | .setErrors p => { state with errors := mergeErrors state.errors p }
  | .setTouched f v => { state with touched := setTouchedField state.touched f v }
  | .setAllTouched v => { state with touched := { title := v, author := v, description := v } }
  | .setSelectedImage v =>
      { state with
        selectedImage := v,
        book := match v with
          | some img => if img = "" then state.book else { state.book with image := img }
          | none => state.book }
  | .loadBook b =>
      { state with
        book := b,
        editing := true,
        selectedImage := if strStarts b.image "data:" then some b.image else none,
        errors := { title := none, author := none, description := none },
        touched := { title := false, author := false, description := false } }
  | .resetForm =>
      { book := blankBook,
        editing := false,
        errors := { title := none, author := none, description := none },
        touched := { title := false, author := false, description := false },
        selectedImage := none }

/-- Initial value handed to `useReducer`. -/
def initialFormState : FormState :=
  { book := blankBook,
    editing := false,
    errors := { title := none, author := none, description := none },
    touched := { title := false, author := false, description := false },
    selectedImage := none }

/-- The JS field name interpolated into the required-field message (field name followed by " is required"). -/
def fieldName : Field → String
  | .title => "title"
  | .author => "author"
  | .description => "description"

/-- Character class of the author regex `/^[a-zA-Z\s.'-]+$/`.  `Char.isAlpha` covers
exactly `a-z`/`A-Z`; `Char.isWhitespace` models `\s`. -/
def authorCharOk (c : Char) : Bool :=
  c.isAlpha || c.isWhitespace || c == '.' || c == '\'' || c == '-'

/-- Whole-string test of the author regex.  It is only applied to the trimmed value
after the required check, so the string is nonempty there (`+` vs `*` is moot). -/
def authorOk (s : String) : Bool :=
  s.data.all authorCharOk

/-- `validateField(field, value)`: an error message or `null`. -/
def validateField (f : Field) (value : String) : Option String :=
  if jsTrim value = "" then some (fieldName f ++ " is required")
  else
    match f with
    | .title =>
        if (jsTrim value).length < 3 then some "Title must be at least 3 characters"
        else if 100 < (jsTrim value).length then some "Title must be less than 100 characters"
        else none
    | .author =>
        if (jsTrim value).length < 3 then some "Author must be at least 3 characters"
        else if ¬ authorOk (jsTrim value) then some "Author name contains invalid characters"
        else none
    | .description =>
        if (jsTrim value).length < 10 then some "Description must be at least 10 characters"
        else if 500 < (jsTrim value).length then some "Description must be less than 500 characters"
        else none

/-- The boolean `validateForm()` returns: `!titleError && !authorError &&
!descriptionError`.  All produced error messages are nonempty strings, so JS string
truthiness coincides with `Option.isNone`.  (`validateForm` also dispatches
`SET_ERRORS`/`SET_ALL_TOUCHED`; that form-state effect is `validateFormDispatch`
below and never touches the books collection.) -/
def validateFormB (s : FormState) : Bool :=
  (validateField .title s.book.title).isNone &&
    (validateField .author s.book.author).isNone &&
    (validateField .description s.book.description).isNone

/-- The `SET_ERRORS` + `SET_ALL_TOUCHED` dispatches performed by `validateForm()`. -/
def validateFormDispatch (s : FormState) : FormState :=
  formReducer
    (formReducer s (.setErrors
      { title := some (validateField .title s.book.title),
        author := some (validateField .author s.book.author),
        description := some (validateField .description s.book.description) }))
    (.setAllTouched true)

/-- JS `a || b` on `string | null` values: `null` and `""` fall through to `b`. -/
def jsOr (a : Option String) (b : String) : String :=
  match a with
  | some s => if s = "" then b else s
  | none => b

/-- `addBook`: on failed validation the collection is untouched; otherwise appends
`{ ...formState.book, id: generateId(), image: selectedImage || book.image }`.
The random result of `generateId()` is the parameter `newId`. -/
def addBook (newId : String) (s : FormState) (books : List Book) : List Book :=
  if validateFormB s then
    books ++ [{ s.book with id := newId, image := jsOr s.selectedImage s.book.image }]
  else books

/-- `updateBook`: on failed validation the collection is untouched; otherwise replaces
every book whose `id` equals the form book's `id` with
`{ ...formState.book, image: selectedImage || book.image }`. -/
def updateBook (s : FormState) (books : List Book) : List Book :=
  if validateFormB s then
    let ub : Book := { s.book with image := jsOr s.selectedImage s.book.image }
    books.map (fun b => if b.id = ub.id then ub else b)
  else books

/-- `handleSubmit`: dispatches on `formState.editing`. -/
def handleSubmit (newId : String) (s : FormState) (books : List Book) : List Book :=
  if s.editing then updateBook s books else addBook newId s books

/-- `deleteBook`. -/
def deleteBook (id : String) (books : List Book) : List Book :=
  books.filter (fun b => b.id != id)

/-- `VALID_IMAGE_TYPES.map((t) => t.split("/")[1].toUpperCase()).join(", ")`. -/
def validExtensions : String :=
  String.intercalate ", " (VALID_IMAGE_TYPES.map (fun t => ((t.splitOn "/").getD 1 "").toUpper))

/-- The invalid-type toast message of `handleFileChange`. -/
def invalidTypeMsg (t : String) : String :=
  "Invalid file type: " ++ t ++ ". Please upload a valid image file (" ++ validExtensions ++ ")."

/-- Decimal rendering of `size` bytes in megabytes with two decimals, a `Nat` model of
`(file.size / (1024 * 1024)).toFixed(2)` (round to nearest, ties up). -/
def mbStr (size : Nat) : String :=
  let c := (size * 100 + 524288) / 1048576
  toString (c / 100) ++ "." ++ (if c % 100 < 10 then "0" else "") ++ toString (c % 100)

/-- The too-large toast message of `handleFileChange`, with `maxSizeMB` computed as
`MAX_IMAGE_SIZE / (1024 * 1024)` exactly as in the source. -/
def tooLargeMsg (size : Nat) : String :=
  ("Image file is too large (" ++ mbStr size ++ "MB). Maximum size is ") ++
    (toString (MAX_IMAGE_SIZE / (1024 * 1024)) ++ "MB") ++
    ". Please compress your image or choose a smaller file."

/-- `needle` occurs as a substring of `s`. -/
def containsSub (needle s : String) : Prop :=
  ∃ a b, s = a ++ needle ++ b

/-- Result of one `handleFileChange` invocation: an error toast, or an accepted base64
data URL (which is then dispatched as `SET_SELECTED_IMAGE` plus a success toast). -/
inductive FileOutcome
  | error (msg : String)
  | ok (b64 : String)
deriving DecidableEq, Repr

/-- `handleFileChange` validation pipeline.  `b64` is the value `fileToBase64`
resolved to (the rejection path of the promise surfaces as a separate toast and also
dispatches nothing). -/
def handleFileChange (f : JsFile) (b64 : String) : FileOutcome :=
  if ¬ (VALID_IMAGE_TYPES.contains f.type) then .error (invalidTypeMsg f.type)
  else if MAX_IMAGE_SIZE < f.size then .error (tooLargeMsg f.size)
  else if b64 = "" ∨ ¬ (strStarts b64 "data:image/") then
    .error "The file appears to be corrupted or is not a valid image. Please try another file."
  else .ok b64

/-- Effect of `handleFileChange` on the form state: only an accepted upload dispatches
`SET_SELECTED_IMAGE`. -/
def applyFileChange (f : JsFile) (b64 : String) (s : FormState) : FormState :=
  match handleFileChange f b64 with
  | .error _ => s
  | .ok b => formReducer s (.setSelectedImage (some b))

/-- `handleChange(field, value)`: `SET_FIELD`, then re-validate only if the field is
already touched. -/
def handleChange (s : FormState) (f : Field) (v : String) : FormState :=
  let s1 := formReducer s (.setField (match f with
    | .title => .title
    | .author => .author
    | .description => .description) v)
  let touchedF := match f with
    | .title => s.touched.title
    | .author => s.touched.author
    | .description => s.touched.description
  if touchedF then
    formReducer s1 (.setErrors (match f with
      | .title => { title := some (validateField .title v), author := none, description := none }
      | .author => { title := none, author := some (validateField .author v), description := none }
      | .description => { title := none, author := none, description := some (validateField .description v) }))
  else s1

/-- `handleBlur(field)`: mark touched, then validate the current value. -/
def handleBlur (s : FormState) (f : Field) : FormState :=
  let s1 := formReducer s (.setTouched f true)
  let v := match f with
    | .title => s.book.title
    | .author => s.book.author
    | .description => s.book.description
  formReducer s1 (.setErrors (match f with
    | .title => { title := some (validateField .title v), author := none, description := none }
    | .author => { title := none, author := some (validateField .author v), description := none }
    | .description => { title := none, author := none, description := some (validateField .description v) }))

/-- `handleCoverSelect(cover)`: `SET_SELECTED_IMAGE null` then `SET_FIELD image`. -/
def handleCoverSelect (s : FormState) (cover : String) : FormState :=
  formReducer (formReducer s (.setSelectedImage none)) (.setField .image cover)

/-- Form-state effect of `handleSubmit` (both `addBook` and `updateBook` dispatch
`validateForm()`'s actions, then `RESET_FORM` exactly when validation succeeded). -/
def handleSubmitForm (s : FormState) : FormState :=
  let s1 := validateFormDispatch s
  if validateFormB s then formReducer s1 .resetForm else s1

/-- The user-level events that drive the form state. -/
inductive FormEv
  | change (f : Field) (v : String)
  | blur (f : Field)
  | coverSelect (c : String)
  | upload (file : JsFile) (b64 : String)
  | load (b : Book)
  | submit
deriving DecidableEq, Repr

/-- One form event. -/
def stepForm (e : FormEv) (s : FormState) : FormState :=
  match e with
  | .change f v => handleChange s f v
  | .blur f => handleBlur s f
  | .coverSelect c => handleCoverSelect s c
  | .upload f b64 => applyFileChange f b64 s
  | .load b => formReducer s (.loadBook b)
  | .submit => handleSubmitForm s

/-- Form states reachable from the initial reducer state through the UI handlers. -/
inductive FormReach : FormState → Prop
  | init : FormReach initialFormState
  | step (e : FormEv) {s : FormState} : FormReach s → FormReach (stepForm e s)

/-- Whenever a nonempty image is selected, it is also the form book's `image` field
(so `selectedImage || book.image` is the pending book's image). -/
def selConsistent (s : FormState) : Prop :=
  ∀ v, s.selectedImage = some v → v ≠ "" → s.book.image = v

lemma handleChange_selectedImage (s : FormState) (f : Field) (v : String) :
    (handleChange s f v).selectedImage = s.selectedImage := by
  cases f <;>
    · unfold handleChange
      dsimp only [formReducer]
      split <;> rfl

lemma handleChange_bookImage (s : FormState) (f : Field) (v : String) :
    (handleChange s f v).book.image = s.book.image := by
  cases f <;>
    · unfold handleChange
      dsimp only [formReducer, setBookField]
      split <;> rfl

lemma handleBlur_selectedImage (s : FormState) (f : Field) :
    (handleBlur s f).selectedImage = s.selectedImage := by
  cases f <;> rfl

lemma handleBlur_bookImage (s : FormState) (f : Field) :
    (handleBlur s f).book.image = s.book.image := by
  cases f <;> rfl

lemma validateFormDispatch_selectedImage (s : FormState) :
    (validateFormDispatch s).selectedImage = s.selectedImage := rfl

lemma validateFormDispatch_book (s : FormState) :
    (validateFormDispatch s).book = s.book := rfl

lemma handleFileChange_ok_startsWith {f : JsFile} {b64 b : String}
    (hout : handleFileChange f b64 = .ok b) : strStarts b "data:image/" = true := by
  unfold handleFileChange at hout
  split at hout
  · exact absurd hout (by simp)
  · split at hout
    · exact absurd hout (by simp)
    · split at hout
      · exact absurd hout (by simp)
      · next hcond =>
        cases hout
        push_neg at hcond
        simpa using hcond.2

lemma selConsistent_reach {s : FormState} (h : FormReach s) : selConsistent s := by
  induction h with
  | init =>
    intro v hv
    simp [initialFormState] at hv
  | @step e st _ ih =>
    cases e with
    | change f v =>
      intro w hw hne
      simp only [stepForm] at hw ⊢
      rw [handleChange_bookImage]
      rw [handleChange_selectedImage] at hw
      exact ih w hw hne
    | blur f =>
      intro w hw hne
      simp only [stepForm] at hw ⊢
      rw [handleBlur_bookImage]
      rw [handleBlur_selectedImage] at hw
      exact ih w hw hne
    | coverSelect c =>
      intro w hw
      simp only [stepForm, handleCoverSelect] at hw
      simp [formReducer, setBookField] at hw
    | upload f b64 =>
      intro w hw hne
      simp only [stepForm, applyFileChange] at hw ⊢
      cases hout : handleFileChange f b64 with
      | error m =>
        rw [hout] at hw
        exact ih w hw hne
      | ok b =>
        have hb : strStarts b "data:image/" = true := handleFileChange_ok_startsWith hout
        have hb' : b ≠ "" := by
          intro he
          rw [he] at hb
          exact absurd hb (by decide)
        rw [hout] at hw
        simp only [formReducer, if_neg hb'] at hw ⊢
        simp only [Option.some.injEq] at hw
        simp [← hw]
    | load b =>
      intro w hw hne
      simp only [stepForm] at hw ⊢
      simp only [formReducer] at hw ⊢
      split at hw
      · simp only [Option.some.injEq] at hw
        subst hw
        rfl
      · cases hw
    | submit =>
      intro w hw hne
      simp only [stepForm, handleSubmitForm] at hw ⊢
      by_cases hvf : validateFormB st = true
      · rw [if_pos hvf] at hw
        simp [formReducer] at hw
      · rw [if_neg hvf] at hw ⊢
        exact ih w hw hne

end BookStore

namespace Gallery

/-- `ImageType` of the photo-gallery component in `src/unnamed/part_001`. -/
structure ImageType where
  id : Int
  url : String
  description : String
  title : String
deriving DecidableEq, Repr

/-- `handleImageUpload`: resets the error message, validates that the MIME type starts
with `"image/"` and that the size is at most `5 * 1024 * 1024`, then appends a new
image built from the base64 conversion result and the current `title`/`description`
inputs (`description || "No description"`).  Returns the new `images` list and the
resulting `errorMessage`.  `now` is `Date.now()`; `b64` is the resolved value of
`convertToBase64`. -/
def handleImageUpload (f : JsFile) (b64 : String) (now : Int)
    (title description : String) (images : List ImageType) :
    List ImageType × Option String :=
  if ¬ (strStarts f.type "image/") then
    (images, some "Please upload a valid image (JPG, PNG...)")
  else if 5 * 1024 * 1024 < f.size then
    (images, some "File size is too large. Please upload an image smaller than 5MB.")
  else
    (images ++ [{ id := now, url := b64,
                  description := if description = "" then "No description" else description,
                  title := title }], none)

/-- `handleDeleteImage`: `prev.filter((image) => image.id !== id)`. -/
def handleDeleteImage (id : Int) (images : List ImageType) : List ImageType :=
  images.filter (fun im => im.id != id)

/-- `handleEditDescription(id, newDescription, newTitle)`. -/
def handleEditDescription (id : Int) (newDescription newTitle : String)
    (images : List ImageType) : List ImageType :=
  images.map (fun im =>
    if im.id = id then { im with description := newDescription, title := newTitle } else im)

end Gallery

namespace Social

/-- `CommentType` of the social-feed demos. -/
structure CommentType where
  id : Int
  user : String
  text : String
  likes : Int
  liked : Bool
deriving DecidableEq, Repr

/-- `Post` of the social-feed demos. -/
structure Post where
  id : Int
  user : String
  content : String
  likes : Int
  liked : Bool
  comments : List CommentType
  createdAt : Int
deriving DecidableEq, Repr

/-- `createPost(content)`: builds the new post with `id: Date.now()` (the parameter
`now`) and stores it with `setPosts((prev) => [newPost, ...prev])`. -/
def createPost (now : Int) (content : String) (posts : List Post) : List Post :=
  { id := now, user := "You", content := content, likes := 0, liked := false,
    comments := [], createdAt := now } :: posts

/-- The per-post update performed by `togglePostLike` on a matching post. -/
def togglePost (p : Post) : Post :=
  { p with liked := !p.liked, likes := if p.liked then p.likes - 1 else p.likes + 1 }

/-- `togglePostLike(postId)` (identical in `page.tsx` and `part_002`). -/
def togglePostLike (postId : Int) (posts : List Post) : List Post :=
  posts.map (fun p => if p.id = postId then togglePost p else p)

/-- The per-comment update performed by `likeComment` on a matching comment. -/
def toggleComment (c : CommentType) : CommentType :=
  { c with liked := !c.liked, likes := if c.liked then c.likes - 1 else c.likes + 1 }

/-- `likeComment(postId, commentId)` (identical in `page.tsx` and `part_002`). -/
def likeComment (postId commentId : Int) (posts : List Post) : List Post :=
  posts.map (fun post =>
    if post.id = postId then
      { post with comments := post.comments.map (fun c =>
          if c.id = commentId then toggleComment c else c) }
    else post)

/-- `FriendRequest` status union. -/
inductive ReqStatus
  | pending
  | accepted
  | declined
deriving DecidableEq, Repr

/-- `FriendRequest`.  The source fields `from`/`to` are named `fromUser`/`toUser`
because `from` is a reserved word in Lean. -/
structure FriendRequest where
  id : Int
  fromUser : String
  toUser : String
  status : ReqStatus
deriving DecidableEq, Repr

/-- The duplicate test of `page.tsx`'s `sendFriendRequest`:
`(req.from === "You" && req.to === to) || (req.from === to && req.to === "You")`. -/
def involvesYouAnd (toU : String) (r : FriendRequest) : Bool :=
  (r.fromUser == "You" && r.toUser == toU) || (r.fromUser == toU && r.toUser == "You")

/-- The new pending request both versions append (`id: Date.now()`). -/
def mkRequest (now : Int) (toU : String) : FriendRequest :=
  { id := now, fromUser := "You", toUser := toU, status := .pending }

/-- `sendFriendRequest` of `src/src/app/page.tsx`: if any request between "You" and
`to` exists (either direction, any status) only a toast is shown; otherwise the new
pending request is appended. -/
def sendFriendRequest (now : Int) (toU : String) (reqs : List FriendRequest) :
    List FriendRequest :=
  match reqs.find? (involvesYouAnd toU) with
  | some _ => reqs
  | none => reqs ++ [mkRequest now toU]

/-- `sendFriendRequest` of `src/unnamed/part_002`: the duplicate test only looks at
requests with `from === "You" && to === to`. -/
def sendFriendRequestV2 (now : Int) (toU : String) (reqs : List FriendRequest) :
    List FriendRequest :=
  if reqs.any (fun r => r.fromUser == "You" && r.toUser == toU) then reqs
  else reqs ++ [mkRequest now toU]

/-- `respondFriendRequest(requestId, response)` (identical in both versions). -/
def respondFriendRequest (rid : Int) (resp : ReqStatus)
    (reqs : List FriendRequest) : List FriendRequest :=
  reqs.map (fun r => if r.id = rid then { r with status := resp } else r)

/-- Every stored request was sent by "You". -/
def fromYou (reqs : List FriendRequest) : Prop :=
  ∀ r ∈ reqs, r.fromUser = "You"

/-- No two stored requests target the same counterpart. -/
def uniqueCounterpart (reqs : List FriendRequest) : Prop :=
  reqs.Pairwise (fun a b => a.toUser ≠ b.toUser)

/-- `friendRequests` states reachable from the initial `[]` (both versions seed the
list with `setFriendRequests([])`) through either version's `sendFriendRequest` and
through `respondFriendRequest`. -/
inductive FRReach : List FriendRequest → Prop
  | init : FRReach []
  | send (now : Int) (toU : String) {s : List FriendRequest} :
      FRReach s → FRReach (sendFriendRequest now toU s)
  | sendV2 (now : Int) (toU : String) {s : List FriendRequest} :
      FRReach s → FRReach (sendFriendRequestV2 now toU s)
  | respond (rid : Int) (resp : ReqStatus) {s : List FriendRequest} :
      FRReach s → FRReach (respondFriendRequest rid resp s)

/-- The messages / friend-requests panel flags of `HomeContent`. -/
structure Panels where
  messages : Bool
  friends : Bool
deriving DecidableEq, Repr

/-- The four click handlers that write the panel flags: the two header toggles (each
closes the other panel) and the two panel close buttons. -/
inductive PanelEv
  | toggleMessages
  | toggleFriends
  | closeMessages
  | closeFriends
deriving DecidableEq, Repr

/-- Effect of one panel event on the flags. -/
def panelStep (e : PanelEv) (s : Panels) : Panels :=
  match e with
  | .toggleMessages => { messages := !s.messages, friends := false }
  | .toggleFriends => { messages := false, friends := !s.friends }
  | .closeMessages => { s with messages := false }
  | .closeFriends => { s with friends := false }

/-- Panel states reachable from the initial `useState(false)`/`useState(false)`. -/
inductive PanelReach : Panels → Prop
  | init : PanelReach { messages := false, friends := false }
  | step (e : PanelEv) {s : Panels} : PanelReach s → PanelReach (panelStep e s)

end Social

/-! Spec-side predicates used to state the update-semantics properties. -/

/-- Derived list of quantities of a dashboard collection. -/
def Dashboard.quantities (books : List Dashboard.Book) : List ℚ :=
  books.map (fun b => b.quantity)

/-- Positional specification of `handleSaveUpdate` on one entity: a book matching the
form book's id is replaced by the form book, any other book is kept. -/
def Dashboard.saveSpec (ub : Dashboard.Book) (x y : Dashboard.Book) : Prop :=
  (x.id = ub.id → y = ub) ∧ (x.id ≠ ub.id → y = x)

/-- Positional specification of `updateBook` on one entity. -/
def BookStore.updSpec (fs : BookStore.FormState) (x y : BookStore.Book) : Prop :=
  (x.id = fs.book.id →
      y = { fs.book with image := BookStore.jsOr fs.selectedImage fs.book.image }) ∧
    (x.id ≠ fs.book.id → y = x)

/-- `true` iff no book in `books` carries identifier `i`. -/
def BookStore.noIdB (books : List BookStore.Book) (i : String) : Bool :=
  books.all (fun b => b.id != i)

/-- Positional specification of `handleEditDescription` on one entity: a matching image
gets the new description and title, its `id` and `url` kept; others are kept whole. -/
def Gallery.editSpec (eid : Int) (d t : String) (x y : Gallery.ImageType) : Prop :=
  (x.id = eid → y = { x with description := d, title := t }) ∧ (x.id ≠ eid → y = x)

/-- `true` iff no image in `images` carries identifier `i`. -/
def Gallery.noIdG (images : List Gallery.ImageType) (i : Int) : Bool :=
  images.all (fun im => im.id != i)

lemma forall2_map_of {α β : Type} (f : α → β) (R : α → β → Prop)
    (h : ∀ x, R x (f x)) : ∀ l : List α, List.Forall₂ R l (l.map f)
  | [] => List.Forall₂.nil
  | x :: xs => List.Forall₂.cons (h x) (forall2_map_of f R h xs)

lemma map_id_of_all {α : Type} (p : α → Bool) (f : α → α)
    (h : ∀ x, p x = true → f x = x) :
    ∀ l : List α, l.all p = true → l.map f = l
  | [], _ => rfl
  | x :: xs, hall => by
    simp only [List.all_cons, Bool.and_eq_true] at hall
    simp only [List.map_cons, h x hall.1, map_id_of_all p f h xs hall.2]

lemma map_match_twice {α : Type} (key : α → Int) (k : Int) (f : α → α)
    (hid : ∀ x, key (f x) = key x) (hinv : ∀ x, f (f x) = x) :
    ∀ l : List α,
      (l.map (fun x => if key x = k then f x else x)).map
          (fun x => if key x = k then f x else x) = l
  | [] => rfl
  | x :: xs => by
    simp only [List.map_cons, map_match_twice key k f hid hinv xs]
    by_cases h : key x = k
    · simp [h, hid x, hinv x]
    · simp [h]

lemma togglePost_togglePost (p : Social.Post) :
    Social.togglePost (Social.togglePost p) = p := by
  cases p with
  | mk id user content likes liked comments createdAt =>
    cases liked <;> simp [Social.togglePost]

lemma toggleComment_toggleComment (c : Social.CommentType) :
    Social.toggleComment (Social.toggleComment c) = c := by
  cases c with
  | mk id user text likes liked =>
    cases liked <;> simp [Social.toggleComment]

lemma addBook_valid_eq (newId : String) (fs : BookStore.FormState)
    (books : List BookStore.Book) (hv : BookStore.validateFormB fs = true) :
    BookStore.addBook newId fs books =
      books ++ [{ fs.book with
                  id := newId,
                  image := BookStore.jsOr fs.selectedImage fs.book.image }] := by
  simp [BookStore.addBook, hv]

lemma updateBook_valid_eq (fs : BookStore.FormState) (books : List BookStore.Book)
    (hv : BookStore.validateFormB fs = true) :
    BookStore.updateBook fs books =
      books.map (fun b =>
        if b.id = fs.book.id then
          { fs.book with image := BookStore.jsOr fs.selectedImage fs.book.image }
        else b) := by
  simp [BookStore.updateBook, hv]

lemma handleSaveUpdate_valid_eq (books : List Dashboard.Book) (ub : Dashboard.Book)
    (hg : ub.title ≠ "" ∧ ub.author ≠ "" ∧ 0 < ub.quantity) :
    Dashboard.handleSaveUpdate books ub =
      books.map (fun b => if b.id = ub.id then ub else b) := by
  simp [Dashboard.handleSaveUpdate, hg]

lemma frReach_inv {s : List Social.FriendRequest} (h : Social.FRReach s) :
    Social.fromYou s ∧ Social.uniqueCounterpart s := by
  induction h with
  | init => exact ⟨fun r hr => absurd hr (List.not_mem_nil r), List.Pairwise.nil⟩
  | @send now toU st _ ih =>
    unfold Social.sendFriendRequest
    cases hfind : st.find? (Social.involvesYouAnd toU) with
    | some r => exact ih
    | none =>
      have hall : ∀ r ∈ st, ¬ (Social.involvesYouAnd toU r = true) := by
        intro r hr
        simpa using List.find?_eq_none.mp hfind r hr
      constructor
      · intro r hr
        rcases List.mem_append.mp hr with h | h
        · exact ih.1 r h
        · simp only [List.mem_singleton] at h
          subst h
          rfl
      · rw [Social.uniqueCounterpart, List.pairwise_append]
        refine ⟨ih.2, by simp, ?_⟩
        intro a ha b hb
        simp only [List.mem_singleton] at hb
        subst hb
        intro hEq
        apply hall a ha
        have h1 : a.fromUser = "You" := ih.1 a ha
        simp [Social.involvesYouAnd, h1, hEq, Social.mkRequest]
  | @sendV2 now toU st _ ih =>
    unfold Social.sendFriendRequestV2
    by_cases hany : st.any (fun r => r.fromUser == "You" && r.toUser == toU) = true
    · rw [if_pos hany]
      exact ih
    · rw [if_neg hany]
      have hall : ∀ r ∈ st, ¬ ((r.fromUser == "You" && r.toUser == toU) = true) := by
        intro r hr hp
        exact hany (List.any_eq_true.mpr ⟨r, hr, hp⟩)
      constructor
      · intro r hr
        rcases List.mem_append.mp hr with h | h
        · exact ih.1 r h
        · simp only [List.mem_singleton] at h
          subst h
          rfl
      · rw [Social.uniqueCounterpart, List.pairwise_append]
        refine ⟨ih.2, by simp, ?_⟩
        intro a ha b hb
        simp only [List.mem_singleton] at hb
        subst hb
        intro hEq
        apply hall a ha
        have h1 : a.fromUser = "You" := ih.1 a ha
        simp [h1, hEq, Social.mkRequest]
  | @respond rid resp st _ ih =>
    unfold Social.respondFriendRequest
    constructor
    · intro r hr
      rcases List.mem_map.mp hr with ⟨x, hx, hfx⟩
      have hfu : r.fromUser = x.fromUser := by
        rw [← hfx]
        by_cases h : x.id = rid <;> simp [h]
      rw [hfu]
      exact ih.1 x hx
    · refine List.Pairwise.map _ ?_ ih.2
      intro a b hab
      have ga : (if a.id = rid then { a with status := resp } else a).toUser = a.toUser := by
        by_cases h : a.id = rid <;> simp [h]
      have gb : (if b.id = rid then { b with status := resp } else b).toUser = b.toUser := by
        by_cases h : b.id = rid <;> simp [h]
      rw [ga, gb]
      exact hab

/-- Concrete valid form state reached from the initial reducer state by typing a
title, an author and a description. -/
def fsReached : BookStore.FormState :=
  BookStore.stepForm (.change .description "A hobbit goes there and back again.")
    (BookStore.stepForm (.change .author "Tolkien")
      (BookStore.stepForm (.change .title "The Hobbit") BookStore.initialFormState))


/-- The rational 1/2, built directly as a reduced fraction so that comparisons on it
are kernel-computable: the value `Number("0.5")` a user can type into the dashboard's
quantity input. -/
def half : ℚ := ⟨1, 2, by decide, Nat.coprime_one_left 2⟩

lemma half_eq : half = 1 / 2 := by
  rw [half, Rat.mk'_eq_divInt, Rat.divInt_eq_div]
  norm_num

/-- A reachable dashboard collection holding a single book with the fractional
quantity 1/2: delete the three seed books, then add a book with quantity `0.5`
(which passes the `quantity > 0` guard). -/
def fracBooks : List Dashboard.Book :=
  Dashboard.handleAddBook
    (Dashboard.handleDeleteBook
      (Dashboard.handleDeleteBook
        (Dashboard.handleDeleteBook Dashboard.initialBooks 1) 2) 3)
    { title := "Half Copy", author := "Some Author", quantity := half }

/-! Claim theorems. -/

/-- C1: for every reachable form state on which `validateForm` returns `true`,
`addBook` grows the collection by exactly one, appending a book whose `title`,
`author`, `description` and `image` equal the pending form book's fields (the stored
image is `selectedImage || book.image`, which on reachable form states equals the
pending book's `image`). -/
theorem claim1_valid_add_appends_pending (newId : String) (fs : BookStore.FormState)
    (books : List BookStore.Book) (hr : BookStore.FormReach fs)
    (hv : BookStore.validateFormB fs = true) :
    BookStore.addBook newId fs books =
        books ++ [{ id := newId, title := fs.book.title, author := fs.book.author,
                    description := fs.book.description, image := fs.book.image }] ∧
      (BookStore.addBook newId fs books).length = books.length + 1 := by
  have hsel := BookStore.selConsistent_reach hr
  have himg : BookStore.jsOr fs.selectedImage fs.book.image = fs.book.image := by
    unfold BookStore.jsOr
    cases hs : fs.selectedImage with
    | none => rfl
    | some v =>
      by_cases hv0 : v = ""
      · simp [hv0]
      · simp [hv0, hsel v hs hv0]
  have heq := addBook_valid_eq newId fs books hv
  rw [himg] at heq
  exact ⟨heq, by rw [heq]; simp⟩

/-- Witness for C1 at a concrete reachable form state. -/
theorem claim1_witness :
    BookStore.validateFormB fsReached = true ∧
      BookStore.addBook "id-abc123def" fsReached [] =
        [] ++ [{ id := "id-abc123def", title := fsReached.book.title,
                 author := fsReached.book.author,
                 description := fsReached.book.description,
                 image := fsReached.book.image }] ∧
      (BookStore.addBook "id-abc123def" fsReached []).length = ([] : List BookStore.Book).length + 1 := by
  have hr : BookStore.FormReach fsReached :=
    .step _ (.step _ (.step _ .init))
  exact ⟨by decide, claim1_valid_add_appends_pending "id-abc123def" fsReached [] hr (by decide)⟩

/-- C2 is false for `createPost`: two posts created in the same millisecond (same
`Date.now()` value, here `1000`) get the same identifier, and the second new post is
placed at the head of the collection, not at its end (the last element is the older
post). -/
theorem claim2_counterexample :
    Social.createPost 1000 "b" (Social.createPost 1000 "a" []) =
        [{ id := 1000, user := "You", content := "b", likes := 0, liked := false,
           comments := [], createdAt := 1000 },
         { id := 1000, user := "You", content := "a", likes := 0, liked := false,
           comments := [], createdAt := 1000 }] ∧
      (Social.createPost 1000 "b" (Social.createPost 1000 "a" [])).getLast? =
        some { id := 1000, user := "You", content := "a", likes := 0, liked := false,
               comments := [], createdAt := 1000 } := by
  decide

/-- C2 amended: the dashboard's `handleAddBook` appends at the end with identifier
`maxId + 1`, distinct from every identifier already stored; the book store's `addBook`
appends at the end (with the `generateId()` result, whose freshness is only
probabilistic); `createPost` instead places the new post (id `Date.now()`) at the
*beginning*, keeping the pre-existing posts in order. -/
theorem claim2_amended
    (books : List Dashboard.Book) (nb : Dashboard.NewBook)
    (hg : nb.title ≠ "" ∧ nb.author ≠ "" ∧ 0 < nb.quantity)
    (newId : String) (fs : BookStore.FormState) (bks : List BookStore.Book)
    (hv : BookStore.validateFormB fs = true)
    (now : Int) (content : String) (posts : List Social.Post) :
    (Dashboard.handleAddBook books nb =
        books ++ [{ id := Dashboard.maxIdOr0 books + 1, title := nb.title,
                    author := nb.author, quantity := nb.quantity }] ∧
      Dashboard.noId books (Dashboard.maxIdOr0 books + 1) = true) ∧
    (BookStore.addBook newId fs bks =
        bks ++ [{ fs.book with
                  id := newId,
                  image := BookStore.jsOr fs.selectedImage fs.book.image }]) ∧
    ((Social.createPost now content posts).drop 1 = posts ∧
      (Social.createPost now content posts).head? =
        some { id := now, user := "You", content := content, likes := 0, liked := false,
               comments := [], createdAt := now }) :=
  ⟨⟨Dashboard.handleAddBook_eq books nb hg, Dashboard.noId_maxIdOr0_succ books⟩,
    addBook_valid_eq newId fs bks hv,
    rfl, rfl⟩

/-- Witness for the amended C2 at concrete inputs. -/
theorem claim2_witness :
    (Dashboard.handleAddBook Dashboard.initialBooks ⟨"Dune", "Frank Herbert", 7⟩ =
        Dashboard.initialBooks ++
          [{ id := Dashboard.maxIdOr0 Dashboard.initialBooks + 1, title := "Dune",
             author := "Frank Herbert", quantity := 7 }] ∧
      Dashboard.noId Dashboard.initialBooks (Dashboard.maxIdOr0 Dashboard.initialBooks + 1) = true) ∧
    (BookStore.addBook "id-xyz" fsReached [] =
        [] ++ [{ fsReached.book with
                 id := "id-xyz",
                 image := BookStore.jsOr fsReached.selectedImage fsReached.book.image }]) ∧
    ((Social.createPost 9 "hello" []).drop 1 = [] ∧
      (Social.createPost 9 "hello" []).head? =
        some { id := 9, user := "You", content := "hello", likes := 0, liked := false,
               comments := [], createdAt := 9 }) :=
  claim2_amended Dashboard.initialBooks ⟨"Dune", "Frank Herbert", 7⟩ (by decide)
    "id-xyz" fsReached [] (by decide) 9 "hello" []

/-- C3: when `validateForm` returns `false`, neither `addBook` nor `updateBook` (nor
`handleSubmit`, which dispatches between them on `editing`) changes the books
collection. -/
theorem claim3_invalid_submit_noop (newId : String) (fs : BookStore.FormState)
    (books : List BookStore.Book) (hv : BookStore.validateFormB fs = false) :
    BookStore.addBook newId fs books = books ∧
      BookStore.updateBook fs books = books ∧
      BookStore.handleSubmit newId fs books = books := by
  refine ⟨?_, ?_, ?_⟩ <;>
    simp [BookStore.addBook, BookStore.updateBook, BookStore.handleSubmit, hv]

/-- Witness for C3: the initial (empty) form state fails validation and submitting
leaves a concrete collection unchanged. -/
theorem claim3_witness :
    BookStore.validateFormB BookStore.initialFormState = false ∧
      BookStore.addBook "id-q" BookStore.initialFormState [] = [] ∧
      BookStore.updateBook BookStore.initialFormState [] = [] ∧
      BookStore.handleSubmit "id-q" BookStore.initialFormState [] = [] :=
  ⟨by decide, claim3_invalid_submit_noop "id-q" BookStore.initialFormState [] (by decide)⟩

/-- C4: toggling a post like twice, and liking a comment twice, restore the posts
collection exactly (in particular the toggled entity's `liked` flag and `likes`
counter). -/
theorem claim4_double_toggle_restores (posts : List Social.Post) (postId commentId : Int) :
    Social.togglePostLike postId (Social.togglePostLike postId posts) = posts ∧
      Social.likeComment postId commentId (Social.likeComment postId commentId posts) = posts := by
  constructor
  · unfold Social.togglePostLike
    exact map_match_twice Social.Post.id postId Social.togglePost
      (fun _ => rfl) togglePost_togglePost posts
  · unfold Social.likeComment
    refine map_match_twice Social.Post.id postId
      (fun post => { post with
        comments := post.comments.map
          (fun c => if c.id = commentId then Social.toggleComment c else c) })
      (fun _ => rfl) ?_ posts
    intro p
    cases p with
    | mk id user content likes liked comments createdAt =>
      simp only
      congr 1
      exact map_match_twice Social.CommentType.id commentId Social.toggleComment
        (fun _ => rfl) toggleComment_toggleComment comments

/-- C5 is false for the dashboard's `maxId + 1` scheme: deleting the book with the
largest identifier (id `3` in the initial state) and then adding a valid book stores
the new book under the just-removed identifier `3`. -/
theorem claim5_counterexample :
    Dashboard.handleDeleteBook Dashboard.initialBooks 3 =
        [{ id := 1, title := "The Great Gatsby", author := "F. Scott Fitzgerald",
           quantity := 15 },
         { id := 2, title := "To Kill a Mockingbird", author := "Harper Lee",
           quantity := 22 }] ∧
      (Dashboard.handleAddBook (Dashboard.handleDeleteBook Dashboard.initialBooks 3)
          ⟨"Dune", "Frank Herbert", 7⟩).getLast? =
        some { id := 3, title := "Dune", author := "Frank Herbert", quantity := 7 } := by
  decide

/-- C5 amended: after `remove(id)`, a valid add stores the new book under
`max(remaining ids) + 1`, an identifier distinct from every identifier in the
post-removal collection — but, as the counterexample shows, possibly equal to the
removed identifier. -/
theorem claim5_amended (books : List Dashboard.Book) (rid : Int) (nb : Dashboard.NewBook)
    (hg : nb.title ≠ "" ∧ nb.author ≠ "" ∧ 0 < nb.quantity) :
    Dashboard.handleAddBook (Dashboard.handleDeleteBook books rid) nb =
        Dashboard.handleDeleteBook books rid ++
          [{ id := Dashboard.maxIdOr0 (Dashboard.handleDeleteBook books rid) + 1,
             title := nb.title, author := nb.author, quantity := nb.quantity }] ∧
      Dashboard.noId (Dashboard.handleDeleteBook books rid)
        (Dashboard.maxIdOr0 (Dashboard.handleDeleteBook books rid) + 1) = true :=
  ⟨Dashboard.handleAddBook_eq _ nb hg, Dashboard.noId_maxIdOr0_succ _⟩

/-- Witness for the amended C5 at concrete inputs. -/
theorem claim5_witness :
    Dashboard.handleAddBook (Dashboard.handleDeleteBook Dashboard.initialBooks 2)
        ⟨"Emma", "Jane Austen", 4⟩ =
        Dashboard.handleDeleteBook Dashboard.initialBooks 2 ++
          [{ id := Dashboard.maxIdOr0 (Dashboard.handleDeleteBook Dashboard.initialBooks 2) + 1,
             title := "Emma", author := "Jane Austen", quantity := 4 }] ∧
      Dashboard.noId (Dashboard.handleDeleteBook Dashboard.initialBooks 2)
        (Dashboard.maxIdOr0 (Dashboard.handleDeleteBook Dashboard.initialBooks 2) + 1) = true :=
  claim5_amended Dashboard.initialBooks 2 ⟨"Emma", "Jane Austen", 4⟩ (by decide)

/-- C6: the three update operations replace exactly the entity whose id matches —
`handleEditDescription` merges new description/title into the matching image (id and
url kept), `updateBook` (on a validated form) replaces the book matching the form
book's id with the merged form book (same id), `handleSaveUpdate` (on a valid update
form) replaces the book matching `updateBook.id` — every other entity is kept
unchanged, and each operation is a no-op on a collection that contains no matching
id. -/
theorem claim6_update_replaces_exactly
    (eid : Int) (d t : String) (imgs imgs0 : List Gallery.ImageType)
    (fs : BookStore.FormState) (bks bks0 : List BookStore.Book)
    (ub : Dashboard.Book) (dbks dbks0 : List Dashboard.Book)
    (hv : BookStore.validateFormB fs = true)
    (hg : ub.title ≠ "" ∧ ub.author ≠ "" ∧ 0 < ub.quantity)
    (h0g : Gallery.noIdG imgs0 eid = true)
    (h0b : BookStore.noIdB bks0 fs.book.id = true)
    (h0d : Dashboard.noId dbks0 ub.id = true) :
    List.Forall₂ (Gallery.editSpec eid d t) imgs (Gallery.handleEditDescription eid d t imgs) ∧
      Gallery.handleEditDescription eid d t imgs0 = imgs0 ∧
      List.Forall₂ (BookStore.updSpec fs) bks (BookStore.updateBook fs bks) ∧
      BookStore.updateBook fs bks0 = bks0 ∧
      List.Forall₂ (Dashboard.saveSpec ub) dbks (Dashboard.handleSaveUpdate dbks ub) ∧
      Dashboard.handleSaveUpdate dbks0 ub = dbks0 := by
  refine ⟨?_, ?_, ?_, ?_, ?_, ?_⟩
  · unfold Gallery.handleEditDescription
    refine forall2_map_of _ _ ?_ imgs
    intro x
    exact ⟨fun hx => by rw [if_pos hx], fun hx => by rw [if_neg hx]⟩
  · unfold Gallery.handleEditDescription
    refine map_id_of_all (fun im : Gallery.ImageType => im.id != eid) _ ?_ imgs0 h0g
    intro x hx
    rw [if_neg (by simpa using hx)]
  · rw [updateBook_valid_eq fs bks hv]
    refine forall2_map_of _ _ ?_ bks
    intro x
    exact ⟨fun hx => by rw [if_pos hx], fun hx => by rw [if_neg hx]⟩
  · rw [updateBook_valid_eq fs bks0 hv]
    refine map_id_of_all (fun b : BookStore.Book => b.id != fs.book.id) _ ?_ bks0 h0b
    intro x hx
    rw [if_neg (by simpa using hx)]
  · rw [handleSaveUpdate_valid_eq dbks ub hg]
    refine forall2_map_of _ _ ?_ dbks
    intro x
    exact ⟨fun hx => by rw [if_pos hx], fun hx => by rw [if_neg hx]⟩
  · rw [handleSaveUpdate_valid_eq dbks0 ub hg]
    refine map_id_of_all (fun b : Dashboard.Book => b.id != ub.id) _ ?_ dbks0 h0d
    intro x hx
    rw [if_neg (by simpa using hx)]

/-- Witness for C6 at concrete collections and forms. -/
theorem claim6_witness :
    List.Forall₂ (Gallery.editSpec 1 "new desc" "new title")
        [{ id := 1, url := "u1", description := "d1", title := "t1" },
         { id := 2, url := "u2", description := "d2", title := "t2" }]
        (Gallery.handleEditDescription 1 "new desc" "new title"
          [{ id := 1, url := "u1", description := "d1", title := "t1" },
           { id := 2, url := "u2", description := "d2", title := "t2" }]) ∧
      Gallery.handleEditDescription 1 "new desc" "new title"
          [{ id := 7, url := "u7", description := "d7", title := "t7" }] =
        [{ id := 7, url := "u7", description := "d7", title := "t7" }] ∧
      List.Forall₂ (BookStore.updSpec fsReached)
        [{ id := "", title := "Old", author := "Olda", description := "Oldd", image := "i" }]
        (BookStore.updateBook fsReached
          [{ id := "", title := "Old", author := "Olda", description := "Oldd", image := "i" }]) ∧
      BookStore.updateBook fsReached
          [{ id := "a", title := "Old", author := "Olda", description := "Oldd", image := "i" }] =
        [{ id := "a", title := "Old", author := "Olda", description := "Oldd", image := "i" }] ∧
      List.Forall₂ (Dashboard.saveSpec { id := 2, title := "1984", author := "George Orwell", quantity := 25 })
        Dashboard.initialBooks
        (Dashboard.handleSaveUpdate Dashboard.initialBooks
          { id := 2, title := "1984", author := "George Orwell", quantity := 25 }) ∧
      Dashboard.handleSaveUpdate [{ id := 9, title := "X", author := "Y", quantity := 1 }]
          { id := 2, title := "1984", author := "George Orwell", quantity := 25 } =
        [{ id := 9, title := "X", author := "Y", quantity := 1 }] :=
  claim6_update_replaces_exactly 1 "new desc" "new title"
    [{ id := 1, url := "u1", description := "d1", title := "t1" },
     { id := 2, url := "u2", description := "d2", title := "t2" }]
    [{ id := 7, url := "u7", description := "d7", title := "t7" }]
    fsReached
    [{ id := "", title := "Old", author := "Olda", description := "Oldd", image := "i" }]
    [{ id := "a", title := "Old", author := "Olda", description := "Oldd", image := "i" }]
    { id := 2, title := "1984", author := "George Orwell", quantity := 25 }
    Dashboard.initialBooks
    [{ id := 9, title := "X", author := "Y", quantity := 1 }]
    (by decide) (by decide) (by decide) (by decide) (by decide)

/-- C7 is false for the gallery's `handleImageUpload`: a small file with MIME type
`image/tiff` is outside the allow-list, yet `handleImageUpload` accepts it (its check
is only `type.startsWith("image/")`), appends a new image entity and reports no
error. -/
theorem claim7_counterexample :
    BookStore.VALID_IMAGE_TYPES.contains "image/tiff" = false ∧
      strStarts "image/tiff" "image/" = true ∧
      Gallery.handleImageUpload { type := "image/tiff", size := 1000 }
          "data:image/tiff;base64,AAAA" 7 "T" "D" [] =
        ([{ id := 7, url := "data:image/tiff;base64,AAAA", description := "D",
            title := "T" }], none) := by
  decide

/-- C7 amended: the book store's `handleFileChange` rejects files outside the
allow-list and files over 5 MB, modifying nothing and showing an error whose
too-large variant contains "5MB"; the gallery's `handleImageUpload` checks only that
the MIME type starts with `image/` (not the allow-list) and rejects non-`image/*`
types and files over 5 MB, leaving the collection unchanged with an error message
that contains "5MB" in the too-large case. -/
theorem claim7_amended
    (f1 : JsFile) (b1 : String) (s1 : BookStore.FormState)
    (h1 : BookStore.VALID_IMAGE_TYPES.contains f1.type = false)
    (f2 : JsFile) (b2 : String) (s2 : BookStore.FormState)
    (h2t : BookStore.VALID_IMAGE_TYPES.contains f2.type = true)
    (h2s : BookStore.MAX_IMAGE_SIZE < f2.size)
    (f3 : JsFile) (b3 : String) (now3 : Int) (t3 d3 : String) (imgs3 : List Gallery.ImageType)
    (h3 : strStarts f3.type "image/" = false)
    (f4 : JsFile) (b4 : String) (now4 : Int) (t4 d4 : String) (imgs4 : List Gallery.ImageType)
    (h4t : strStarts f4.type "image/" = true) (h4s : 5 * 1024 * 1024 < f4.size) :
    (BookStore.handleFileChange f1 b1 = .error (BookStore.invalidTypeMsg f1.type) ∧
      BookStore.applyFileChange f1 b1 s1 = s1) ∧
    (BookStore.handleFileChange f2 b2 = .error (BookStore.tooLargeMsg f2.size) ∧
      BookStore.applyFileChange f2 b2 s2 = s2 ∧
      BookStore.containsSub "5MB" (BookStore.tooLargeMsg f2.size)) ∧
    (Gallery.handleImageUpload f3 b3 now3 t3 d3 imgs3 =
        (imgs3, some "Please upload a valid image (JPG, PNG...)")) ∧
    (Gallery.handleImageUpload f4 b4 now4 t4 d4 imgs4 =
        (imgs4, some "File size is too large. Please upload an image smaller than 5MB.") ∧
      BookStore.containsSub "5MB"
        "File size is too large. Please upload an image smaller than 5MB.") := by
  have h1' : f1.type ∉ BookStore.VALID_IMAGE_TYPES := by simpa using h1
  have h2t' : f2.type ∈ BookStore.VALID_IMAGE_TYPES := by simpa using h2t
  have hfc1 : BookStore.handleFileChange f1 b1 = .error (BookStore.invalidTypeMsg f1.type) := by
    simp [BookStore.handleFileChange, h1']
  have hfc2 : BookStore.handleFileChange f2 b2 = .error (BookStore.tooLargeMsg f2.size) := by
    simp [BookStore.handleFileChange, h2t', h2s]
  refine ⟨⟨hfc1, ?_⟩, ⟨hfc2, ?_, ?_⟩, ?_, ?_, ?_⟩
  · rw [BookStore.applyFileChange, hfc1]
  · rw [BookStore.applyFileChange, hfc2]
  · refine ⟨"Image file is too large (" ++ BookStore.mbStr f2.size ++ "MB). Maximum size is ",
      ". Please compress your image or choose a smaller file.", ?_⟩
    unfold BookStore.tooLargeMsg
    rw [show (toString (BookStore.MAX_IMAGE_SIZE / (1024 * 1024)) ++ "MB") = "5MB" from by decide]
  · simp [Gallery.handleImageUpload, h3]
  · simp [Gallery.handleImageUpload, h4t, h4s]
  · exact ⟨"File size is too large. Please upload an image smaller than ", ".", by decide⟩

/-- Witness for the amended C7, in particular at a 6 MB PNG file. -/
theorem claim7_witness :
    (BookStore.handleFileChange { type := "application/pdf", size := 100 } "x" =
        .error (BookStore.invalidTypeMsg ({ type := "application/pdf", size := 100 } : JsFile).type) ∧
      BookStore.applyFileChange { type := "application/pdf", size := 100 } "x"
          BookStore.initialFormState = BookStore.initialFormState) ∧
    (BookStore.handleFileChange { type := "image/png", size := 6 * 1024 * 1024 } "y" =
        .error (BookStore.tooLargeMsg ({ type := "image/png", size := 6 * 1024 * 1024 } : JsFile).size) ∧
      BookStore.applyFileChange { type := "image/png", size := 6 * 1024 * 1024 } "y"
          BookStore.initialFormState = BookStore.initialFormState ∧
      BookStore.containsSub "5MB"
        (BookStore.tooLargeMsg ({ type := "image/png", size := 6 * 1024 * 1024 } : JsFile).size)) ∧
    (Gallery.handleImageUpload { type := "text/plain", size := 10 } "z" 3 "T" "D" [] =
        ([], some "Please upload a valid image (JPG, PNG...)")) ∧
    (Gallery.handleImageUpload { type := "image/png", size := 6 * 1024 * 1024 } "w" 4 "T" "D" [] =
        ([], some "File size is too large. Please upload an image smaller than 5MB.") ∧
      BookStore.containsSub "5MB"
        "File size is too large. Please upload an image smaller than 5MB.") :=
  claim7_amended
    { type := "application/pdf", size := 100 } "x" BookStore.initialFormState (by decide)
    { type := "image/png", size := 6 * 1024 * 1024 } "y" BookStore.initialFormState
    (by decide) (by decide)
    { type := "text/plain", size := 10 } "z" 3 "T" "D" [] (by decide)
    { type := "image/png", size := 6 * 1024 * 1024 } "w" 4 "T" "D" [] (by decide) (by decide)

/-- C8 is false on the real (fractional-number) quantity domain: deleting the three
seed books and adding a book with quantity 1/2 (accepted by the `quantity > 0` guard)
reaches a collection whose true maximum quantity is 1/2, while the derived
`maxQuantity = Math.max(...quantities, 1)` is 1 — the quantity >= 1 condition the
claim's equality rests on does not hold in this reachable state. -/
theorem claim8_counterexample :
    Dashboard.Reach fracBooks ∧
      Dashboard.quantities fracBooks = [half] ∧
      (Dashboard.quantities fracBooks).max? = some half ∧
      Dashboard.maxQuantity fracBooks = 1 ∧
      ¬ ((1 : ℚ) ≤ half) ∧
      (Dashboard.quantities fracBooks).max? ≠ some (Dashboard.maxQuantity fracBooks) :=
  ⟨Dashboard.Reach.add _
      (Dashboard.Reach.del 3 (Dashboard.Reach.del 2 (Dashboard.Reach.del 1 Dashboard.Reach.init))),
    by decide, by decide, by decide, by decide, by decide⟩

/-- C8 amended: on every nonempty collection all of whose quantities are at least 1
— the condition the claim names, maintained by integral inputs but violable by
fractional ones — the derived `maxQuantity` equals the maximum of the quantity
fields; unconditionally, `maxQuantity` is the maximum of the quantities together
with 1. -/
theorem claim8_amended (books books2 : List Dashboard.Book)
    (hq : Dashboard.quantitiesGE1 books) (hne : books ≠ []) :
    (Dashboard.quantities books).max? = some (Dashboard.maxQuantity books) ∧
      (Dashboard.quantities books2 ++ [1]).max? = some (Dashboard.maxQuantity books2) := by
  constructor
  · exact Dashboard.maxQuantity_eq_max? hne hq
  · cases books2 with
    | nil => rfl
    | cons b bs =>
      show ((b.quantity :: Dashboard.quantities bs) ++ [1]).max? = _
      rw [List.cons_append, List.max?_cons']
      rfl

/-- Witness for the amended C8 at the initial dashboard state (all integral
quantities) and at the empty collection for the unconditional part. -/
theorem claim8_witness :
    (Dashboard.quantities Dashboard.initialBooks).max? =
        some (Dashboard.maxQuantity Dashboard.initialBooks) ∧
      (Dashboard.quantities ([] : List Dashboard.Book) ++ [1]).max? =
        some (Dashboard.maxQuantity ([] : List Dashboard.Book)) :=
  claim8_amended Dashboard.initialBooks []
    (by unfold Dashboard.quantitiesGE1; decide) (by decide)

/-- C9: in every state reachable from both panels closed via the panel toggle/close
handlers, at most one of the messages panel and the friend-requests panel is open. -/
theorem claim9_panels_mutually_exclusive (s : Social.Panels) (h : Social.PanelReach s) :
    s.messages = false ∨ s.friends = false := by
  induction h with
  | init => exact Or.inl rfl
  | step e _ =>
    cases e with
    | toggleMessages => exact Or.inr rfl
    | toggleFriends => exact Or.inl rfl
    | closeMessages => exact Or.inl rfl
    | closeFriends => exact Or.inr rfl

/-- Witness for C9 at the initial panel state. -/
theorem claim9_witness :
    ({ messages := false, friends := false } : Social.Panels).messages = false ∨
      ({ messages := false, friends := false } : Social.Panels).friends = false :=
  claim9_panels_mutually_exclusive _ Social.PanelReach.init

/-- C10: on every reachable `friendRequests` state, `sendFriendRequest(to)` of both
versions appends the new pending request exactly when no request between "You" and
`to` exists, and leaves the list exactly unchanged when one exists (of any status);
consequently every stored request is from "You" and no two requests target the same
counterpart. -/
theorem claim10_no_duplicate_requests (s : List Social.FriendRequest)
    (h : Social.FRReach s) (now : Int) (toU : String) :
    (s.any (Social.involvesYouAnd toU) = true →
        Social.sendFriendRequest now toU s = s ∧
          Social.sendFriendRequestV2 now toU s = s) ∧
      (s.any (Social.involvesYouAnd toU) = false →
        Social.sendFriendRequest now toU s = s ++ [Social.mkRequest now toU] ∧
          Social.sendFriendRequestV2 now toU s = s ++ [Social.mkRequest now toU]) ∧
      Social.fromYou s ∧ Social.uniqueCounterpart s := by
  obtain ⟨hfy, huc⟩ := frReach_inv h
  refine ⟨?_, ?_, hfy, huc⟩
  · intro hany
    obtain ⟨r, hr, hrp⟩ := List.any_eq_true.mp hany
    constructor
    · unfold Social.sendFriendRequest
      cases hfind : s.find? (Social.involvesYouAnd toU) with
      | some _ => rfl
      | none =>
        exact absurd hrp (by simpa using List.find?_eq_none.mp hfind r hr)
    · unfold Social.sendFriendRequestV2
      have hv2 : s.any (fun q => q.fromUser == "You" && q.toUser == toU) = true := by
        refine List.any_eq_true.mpr ⟨r, hr, ?_⟩
        have hfy' : r.fromUser = "You" := hfy r hr
        have hrp' : (r.fromUser = "You" ∧ r.toUser = toU) ∨
            (r.fromUser = toU ∧ r.toUser = "You") := by
          simpa [Social.involvesYouAnd] using hrp
        rcases hrp' with h1 | h2
        · simp [h1.1, h1.2]
        · have htoU : toU = "You" := by rw [← h2.1, hfy']
          simp [hfy', h2.2, htoU]
      rw [if_pos hv2]
  · intro hany
    have hall := List.any_eq_false.mp hany
    constructor
    · unfold Social.sendFriendRequest
      cases hfind : s.find? (Social.involvesYouAnd toU) with
      | some r =>
        have hmem := List.mem_of_find?_eq_some hfind
        have hp := List.find?_some hfind
        exact absurd hp (hall r hmem)
      | none => rfl
    · unfold Social.sendFriendRequestV2
      have hv2 : s.any (fun q => q.fromUser == "You" && q.toUser == toU) = false := by
        refine List.any_eq_false.mpr ?_
        intro q hq hcontra
        apply hall q hq
        simp [Social.involvesYouAnd, hcontra]
      rw [if_neg (by simp [hv2])]

/-- Witness for C10 at the initial (empty) request list. -/
theorem claim10_witness :
    (([] : List Social.FriendRequest).any (Social.involvesYouAnd "Alice") = true →
        Social.sendFriendRequest 1 "Alice" [] = [] ∧
          Social.sendFriendRequestV2 1 "Alice" [] = []) ∧
      (([] : List Social.FriendRequest).any (Social.involvesYouAnd "Alice") = false →
        Social.sendFriendRequest 1 "Alice" [] = [] ++ [Social.mkRequest 1 "Alice"] ∧
          Social.sendFriendRequestV2 1 "Alice" [] = [] ++ [Social.mkRequest 1 "Alice"]) ∧
      Social.fromYou [] ∧ Social.uniqueCounterpart [] :=
  claim10_no_duplicate_requests [] Social.FRReach.init 1 "Alice"
